import Mathlib

/-!
Verification development for the `logtriage` daemon (github.com/setevik/logtriage).

This file gives a shallow embedding, in Lean 4, of the parts of the Go source
that the checked specification claims talk about:

* the data model (`internal/event`): `Event`, tiers, severities;
* the journal-entry classifier (`internal/classifier`): `Classify` and its
  per-tier helpers, with the regular-expression tables of `patterns.go`
  embedded as executable character-list matchers;
* the event store (`internal/store`): `Insert`, `MarkNotified`,
  `CheckCooldown` over an explicit list of stored rows;
* the ntfy reporter (`internal/reporter`): `Report`, `FormatTitle`,
  `TagsForTier`, the per-tier alert policy `Config.ShouldAlert`;
* the pipeline driver (`cmd/logtriage/main.go`): `handleEvent`, modelled as a
  function that also emits the ordered trace of store/notifier operations,
  and the duration helpers `parseDuration` / `Duration.UnmarshalText`.

Modelling conventions:

* Go strings are Lean `String`s; all scanning/matching is done on `String.data`
  (character lists) with structural recursion so every definition evaluates
  inside the kernel.  Messages are single journal lines, so the RE2 rule that
  `.` does not match a newline is embedded as an explicit no-newline condition.
* `time.Time` values are `Int` nanoseconds since the Unix epoch (Go's own
  internal resolution).  The store serialises timestamps in RFC3339Nano and
  compares them as SQLite strings; on the whole-second timestamps used in all
  concrete inputs below that comparison agrees with the numeric order used
  here.
* Go `int`/`int64`/`time.Duration` arithmetic wraps at 64 bits; where that
  matters (duration parsing) the wrap is explicit via `int64wrap`.
* External effects (HTTP responses) enter as explicit oracle arguments.
-/

namespace Logtriage

/-! ## Character-list scanning primitives

These model, with structural recursion, the few regular-expression shapes the
classifier uses.  `splits s` enumerates every decomposition `s = before ++
after` in position order, which yields RE2's leftmost-match rule when scanned
front to back. -/

/-- All decompositions `s = before ++ after`, ordered by the length of
`before` (i.e. by match position, leftmost first). -/
def splits : List Char → List (List Char × List Char)
  | [] => [([], [])]
  | c :: cs => ([], c :: cs) :: (splits cs).map (fun p => (c :: p.1, p.2))

/-- Whitespace class of Go's `regexp` `\s` (RE2: `[\t\n\f\r ]`). -/
def goSpace (c : Char) : Bool :=
  c = ' ' || c = '\t' || c = '\n' || c = '\x0c' || c = '\r'

/-- Word-character class of Go's `regexp` `\w` (`[0-9A-Za-z_]`). -/
def goWord (c : Char) : Bool :=
  c.isAlphanum || c = '_'

/-- Substring test, modelling Go `regexp` literal patterns and
`strings.Contains`. -/
def listHasSub (s pat : List Char) : Bool :=
  (splits s).any (fun p => pat.isPrefixOf p.2)

/-- Substring test on strings. -/
def strHasSub (s pat : String) : Bool :=
  listHasSub s.data pat.data

/-- Matcher for the RE2 shape `A.*B` on a single journal line: an occurrence
of `A` followed, with no intervening newline (RE2 `.` does not match `\n`),
by an occurrence of `B`. -/
def seqSub (s a b : List Char) : Bool :=
  (splits s).any (fun p =>
    a.isPrefixOf p.2 &&
      (splits (p.2.drop a.length)).any (fun q => !q.1.contains '\n' && b.isPrefixOf q.2))

/-- String version of `seqSub`. -/
def strSeqSub (s a b : String) : Bool :=
  seqSub s.data a.data b.data

/-- Leftmost-first search: try `f before after` at every decomposition of `s`,
returning the first hit.  This models RE2's leftmost-match rule for patterns
that start with a literal (`f` checks the literal as a prefix of `after`). -/
def firstSplit (s : List Char) (f : List Char → List Char → Option α) : Option α :=
  (splits s).findSome? (fun p => f p.1 p.2)

/-- Decimal digit run at the front of `cs`: the digits and the rest. -/
def digitRun (cs : List Char) : List Char × List Char :=
  (cs.takeWhile Char.isDigit, cs.dropWhile Char.isDigit)

/-- Numeric value of a list of decimal digits (most significant first). -/
def digitsVal (ds : List Char) : Nat :=
  ds.foldl (fun a c => a * 10 + (c.toNat - 48)) 0

end Logtriage

namespace Logtriage

/-! ## Go integer conversions -/

/-- Largest Go `int64`. -/
def maxInt64 : Int := 9223372036854775807

/-- Wrap an unbounded integer into Go's two's-complement `int64`, modelling
overflow of Go `int` / `time.Duration` arithmetic on a 64-bit host. -/
def int64wrap (x : Int) : Int :=
  (x + 9223372036854775808) % 18446744073709551616 - 9223372036854775808

/-- Model of `strconv.ParseInt(s, 10, 64)` restricted to what the classifier
feeds it: an optional sign followed by decimal digits spanning the whole
string; `none` on a syntax or range error (Go reports both as errors). -/
def goParseInt64 (s : String) : Option Int :=
  let (neg, cs) :=
    match s.data with
    | '-' :: rest => (true, rest)
    | '+' :: rest => (false, rest)
    | cs => (false, cs)
  let (ds, rest) := digitRun cs
  if ds.isEmpty || !rest.isEmpty then none
  else
    let v : Int := digitsVal ds
    let v := if neg then -v else v
    if v < -9223372036854775808 || v > maxInt64 then none else some v

/-- Model of `strconv.Atoi` as used for pid fields (`pid, _ := strconv.Atoi`,
error ignored): the parsed value, or `0` on a syntax error.  On a range error
Go's `ParseInt` returns the clamped extreme together with the ignored error;
the classifier never feeds it out-of-range digits, and the clamp is kept for
fidelity. -/
def goAtoi (s : String) : Int :=
  let (neg, cs) :=
    match s.data with
    | '-' :: rest => (true, rest)
    | '+' :: rest => (false, rest)
    | cs => (false, cs)
  let (ds, rest) := digitRun cs
  if ds.isEmpty || !rest.isEmpty then 0
  else
    let v : Int := digitsVal ds
    let v := if neg then -v else v
    if v > maxInt64 then maxInt64
    else if v < -9223372036854775808 then -9223372036854775808
    else v

/-- Value of a digit run, as `strconv.Atoi` applied to regex capture `(\d+)`
(digits guaranteed by the pattern). -/
def goAtoiDigits (ds : List Char) : Int :=
  let v : Int := digitsVal ds
  if v > maxInt64 then maxInt64 else v

end Logtriage

namespace Logtriage

/-! ## Data model (`internal/event/event.go`) -/

/-- Event: the pipeline's unit of work (`event.Event`).  Tier and severity are
the Go string types `event.Tier` / `event.Severity`; `rawFields` is the
`map[string]string` of journal fields as an association list. -/
structure Event where
  id : String
  instanceID : String
  timestamp : Int
  tier : String
  severity : String
  summary : String
  process : String
  pid : Int
  unit : String
  detail : String
  rawFields : List (String × String)
  deriving Repr, DecidableEq

/-- Model of `event.New`: the generated UUID is opaque to every claim checked
here and is modelled as the empty string; the pipeline-level inputs below
supply explicit ids where identity matters. -/
def eventNew (instanceID : String) (ts : Int) (tier severity summary : String) : Event :=
  { id := "", instanceID := instanceID, timestamp := ts, tier := tier,
    severity := severity, summary := summary, process := "", pid := 0,
    unit := "", detail := "", rawFields := [] }

/-- Go `map[string]string` lookup with the zero value `""` for a missing key
(as in `ev.RawFields["_gpu_event"]`). -/
def fieldsGet (fields : List (String × String)) (k : String) : String :=
  match fields.find? (fun p => p.1 = k) with
  | some p => p.2
  | none => ""

/-- Journal entry (`watcher.JournalEntry`): the classifier's input record. -/
structure JournalEntry where
  message : String
  priority : Int
  syslogIdentifier : String
  systemdUnit : String
  pid : String
  transport : String
  realtimeTimestamp : String
  fields : List (String × String)
  deriving Repr, DecidableEq

end Logtriage

namespace Logtriage

/-! ## Classifier pattern tables (`internal/classifier/patterns.go`)

Each Go `regexp` is embedded as an executable matcher with the original
pattern recorded in its doc comment. -/

/-- T1 match table `oomPatterns`: `oom-kill:`, `Out of memory: Kill(ed)?
process`, `invoked oom-killer`.  The classifier loop fires the same body for
whichever pattern matches first, so matching is a disjunction. -/
def oomMatch (msg : String) : Bool :=
  strHasSub msg "oom-kill:" ||
    strHasSub msg "Out of memory: Killed process" ||
    strHasSub msg "Out of memory: Kill process" ||
    strHasSub msg "invoked oom-killer"

/-- T2 match table `crashPatterns` entry `traps:.*trap`. -/
def trapsTrapMatch (msg : String) : Bool :=
  strSeqSub msg "traps:" "trap"

/-- T2 match table `crashPatterns` entry
`Process \d+ \(.+\) of user \d+ dumped core`. -/
def coredumpPatMatch (msg : String) : Bool :=
  (splits msg.data).any (fun p =>
    "Process ".data.isPrefixOf p.2 &&
      (let t := p.2.drop 8
       let (ds, t2) := digitRun t
       !ds.isEmpty && " (".data.isPrefixOf t2 &&
         (splits (t2.drop 2)).any (fun q =>
           !q.1.isEmpty && !q.1.contains '\n' &&
             ") of user ".data.isPrefixOf q.2 &&
               (let (ds2, t4) := digitRun (q.2.drop 10)
                !ds2.isEmpty && " dumped core".data.isPrefixOf t4))))

/-- T2 match table `crashPatterns`: `segfault at`, `traps:.*trap`,
`Process \d+ \(.+\) of user \d+ dumped core`. -/
def crashMsgMatch (msg : String) : Bool :=
  strHasSub msg "segfault at" || trapsTrapMatch msg || coredumpPatMatch msg

/-- T3 match table `serviceFailPatterns` entry
`Main process exited, code=exited, status=\d+/`. -/
def mainProcExitedMatch (msg : String) : Bool :=
  (splits msg.data).any (fun p =>
    "Main process exited, code=exited, status=".data.isPrefixOf p.2 &&
      (let (ds, t) := digitRun (p.2.drop 41)
       !ds.isEmpty && "/".data.isPrefixOf t))

/-- T3 match table `serviceFailPatterns`: `entered failed state`,
`Failed with result`, `Main process exited, code=exited, status=\d+/`. -/
def serviceFailMatch (msg : String) : Bool :=
  strHasSub msg "entered failed state" ||
    strHasSub msg "Failed with result" ||
    mainProcExitedMatch msg

/-- T4 match table `kernelHWPatterns`: thirteen disk/CPU/hardware patterns
(`I/O error`, `EXT4-fs error`, `XFS .* error`, `BTRFS .* error`,
`Buffer I/O error`, `blk_update_request: I/O error`,
`mce: \[Hardware Error\]`, `Machine check events logged`, `MCE`, `NMI:`,
`EDAC .* error`, `pcieport.*AER`, `Hardware Error`).  Note that the GPU
table `gpuPatterns` is a separate variable that `classifyKernelHW` never
consults. -/
def kernelHWMatch (msg : String) : Bool :=
  strHasSub msg "I/O error" ||
    strHasSub msg "EXT4-fs error" ||
    strSeqSub msg "XFS " " error" ||
    strSeqSub msg "BTRFS " " error" ||
    strHasSub msg "Buffer I/O error" ||
    strHasSub msg "blk_update_request: I/O error" ||
    strHasSub msg "mce: [Hardware Error]" ||
    strHasSub msg "Machine check events logged" ||
    strHasSub msg "MCE" ||
    strHasSub msg "NMI:" ||
    strSeqSub msg "EDAC " " error" ||
    strSeqSub msg "pcieport" "AER" ||
    strHasSub msg "Hardware Error"

/-- GPU-table entry `amdgpu.*ring\s+\S+\s+timeout`. -/
def amdRingTimeoutMatch (msg : String) : Bool :=
  (splits msg.data).any (fun p =>
    "amdgpu".data.isPrefixOf p.2 &&
      (splits (p.2.drop 6)).any (fun q =>
        !q.1.contains '\n' && "ring".data.isPrefixOf q.2 &&
          (let t := q.2.drop 4
           let sp := t.takeWhile goSpace
           let t2 := t.drop sp.length
           let w := t2.takeWhile (fun c => !goSpace c)
           let t3 := t2.drop w.length
           let sp2 := t3.takeWhile goSpace
           !sp.isEmpty && !w.isEmpty && !sp2.isEmpty &&
             "timeout".data.isPrefixOf (t3.drop sp2.length))))

/-- GPU-table entry `i915.*Resetting (?:rcs|bcs|vcs|vecs|ccs)\d*`. -/
def i915ResettingEngineMatch (msg : String) : Bool :=
  (splits msg.data).any (fun p =>
    "i915".data.isPrefixOf p.2 &&
      (splits (p.2.drop 4)).any (fun q =>
        !q.1.contains '\n' &&
          ("Resetting rcs".data.isPrefixOf q.2 ||
            "Resetting bcs".data.isPrefixOf q.2 ||
            "Resetting vcs".data.isPrefixOf q.2 ||
            "Resetting vecs".data.isPrefixOf q.2 ||
            "Resetting ccs".data.isPrefixOf q.2)))

/-- GPU-table entry `gpu\s+fault`. -/
def gpuFaultLowerMatch (msg : String) : Bool :=
  (splits msg.data).any (fun p =>
    "gpu".data.isPrefixOf p.2 &&
      (let t := p.2.drop 3
       let sp := t.takeWhile goSpace
       !sp.isEmpty && "fault".data.isPrefixOf (t.drop sp.length)))

/-- T4 GPU table `gpuPatterns` (NVIDIA/AMD/Intel/DRM error lines).  Present in
`patterns.go` but unused by `classifyKernelHW`; embedded because claim C2 is
about events whose message matches one of these. -/
def gpuPatMatch (msg : String) : Bool :=
  strHasSub msg "NVRM: Xid" ||
    strSeqSub msg "NVRM:" "GPU has fallen off the bus" ||
    strSeqSub msg "NVRM:" "GPU crash dump" ||
    strSeqSub msg "NVRM:" "Out of memory" ||
    strSeqSub msg "NVRM:" "Cannot allocate sysmem" ||
    strSeqSub msg "amdgpu" "GPU fault" ||
    strSeqSub msg "amdgpu" "GPU reset" ||
    strSeqSub msg "amdgpu" "page fault" ||
    amdRingTimeoutMatch msg ||
    strHasSub msg "GCVM_L2_PROTECTION_FAULT_STATUS" ||
    strHasSub msg "VM_L2_PROTECTION_FAULT_STATUS" ||
    strHasSub msg "[drm] VRAM is lost" ||
    strSeqSub msg "amdgpu" "GPU SW CTF" ||
    strSeqSub msg "amdgpu" "GPU over temperature range" ||
    strSeqSub msg "i915" "GPU HANG" ||
    i915ResettingEngineMatch msg ||
    strSeqSub msg "i915" "Resetting chip" ||
    strHasSub msg "GUC: Engine reset failed" ||
    strHasSub msg "GPU hang" ||
    gpuFaultLowerMatch msg ||
    strSeqSub msg "*ERROR*" "flip_done timed out" ||
    strSeqSub msg "*ERROR*" "commit wait timed out"

end Logtriage

namespace Logtriage

/-! ## Classifier extractors (`classifier.go` / `patterns.go`) -/

/-- Greedy `.*pat...` step: the last same-line occurrence of `pat` in `t`
whose suffix satisfies `f` (RE2 greedy `.*` backtracks from the right; `.`
does not cross a newline). -/
def lastSeqCapture (t pat : List Char) (f : List Char → Option α) : Option α :=
  ((splits t).reverse).findSome? (fun q =>
    if !q.1.contains '\n' && pat.isPrefixOf q.2 then f (q.2.drop pat.length) else none)

/-- Capture for `\s+(\w+)`. -/
def spaceWordCapture (t : List Char) : Option String :=
  let sp := t.takeWhile goSpace
  let w := (t.drop sp.length).takeWhile goWord
  if !sp.isEmpty && !w.isEmpty then some (String.mk w) else none

/-- `oomKillProcessRe = Killed process (\d+) \(([^)]+)\)`, yielding
`(pid digits value, process name)`. -/
def findKilledProcess (msg : String) : Option (Int × String) :=
  firstSplit msg.data (fun _ t =>
    if "Killed process ".data.isPrefixOf t then
      let (ds, t2) := digitRun (t.drop 15)
      if ds.isEmpty then none
      else if " (".data.isPrefixOf t2 then
        let name := (t2.drop 2).takeWhile (fun c => c ≠ ')')
        if name.isEmpty then none
        else if ")".data.isPrefixOf ((t2.drop 2).drop name.length) then
          some (goAtoiDigits ds, String.mk name)
        else none
      else none
    else none)

/-- `oomKillTaskRe = task=([^,]+),pid=(\d+)`, yielding `(task name, pid)`. -/
def findTaskPid (msg : String) : Option (String × Int) :=
  firstSplit msg.data (fun _ t =>
    if "task=".data.isPrefixOf t then
      let name := (t.drop 5).takeWhile (fun c => c ≠ ',')
      if name.isEmpty then none
      else if ",pid=".data.isPrefixOf ((t.drop 5).drop name.length) then
        let (ds, _) := digitRun (((t.drop 5).drop name.length).drop 5)
        if ds.isEmpty then none else some (String.mk name, goAtoiDigits ds)
      else none
    else none)

/-- `extractOOMProcess`: try `oomKillProcessRe` then `oomKillTaskRe`; on
failure the empty process and pid 0. -/
def extractOOMProcess (msg : String) : String × Int :=
  match findKilledProcess msg with
  | some (pid, name) => (name, pid)
  | none =>
    match findTaskPid msg with
    | some (name, pid) => (name, pid)
    | none => ("", 0)

/-- `coredumpProcessRe = Process (\d+) \(([^)]+)\) of user \d+ dumped core`,
yielding `(pid, process name)`. -/
def findCoredumpProcess (msg : String) : Option (Int × String) :=
  firstSplit msg.data (fun _ t =>
    if "Process ".data.isPrefixOf t then
      let (ds, t2) := digitRun (t.drop 8)
      if ds.isEmpty then none
      else if " (".data.isPrefixOf t2 then
        let name := (t2.drop 2).takeWhile (fun c => c ≠ ')')
        let t3 := (t2.drop 2).drop name.length
        if name.isEmpty then none
        else if ") of user ".data.isPrefixOf t3 then
          let (ds2, t4) := digitRun (t3.drop 10)
          if ds2.isEmpty then none
          else if " dumped core".data.isPrefixOf t4 then
            some (goAtoiDigits ds, String.mk name)
          else none
        else none
      else none
    else none)

/-- `extractCoredumpProcess`: the coredump regex or the empty process. -/
def extractCoredumpProcess (msg : String) : String × Int :=
  match findCoredumpProcess msg with
  | some (pid, name) => (name, pid)
  | none => ("", 0)

/-- `crashSegfaultRe = (\S+)\[(\d+)\]: segfault at`: the `\S+` capture is the
maximal non-space run before the bracket (crash lines carry a single
`name[pid]` bracket, where this coincides with RE2's leftmost-greedy answer). -/
def findSegfaultProcess (msg : String) : Option (String × Int) :=
  firstSplit msg.data (fun b t =>
    if "[".data.isPrefixOf t then
      let (ds, t2) := digitRun (t.drop 1)
      if ds.isEmpty then none
      else if "]: segfault at".data.isPrefixOf t2 then
        let name := (b.reverse.takeWhile (fun c => !goSpace c)).reverse
        if name.isEmpty then none else some (String.mk name, goAtoiDigits ds)
      else none
    else none)

/-- `extractCrashProcess`: the segfault regex, else the syslog identifier with
the entry's pid field (error of `strconv.Atoi` ignored), else empty. -/
def extractCrashProcess (entry : JournalEntry) : String × Int :=
  match findSegfaultProcess entry.message with
  | some (name, pid) => (name, pid)
  | none =>
    if entry.syslogIdentifier ≠ "" then (entry.syslogIdentifier, goAtoi entry.pid)
    else ("", 0)

/-- `serviceUnitRe = ^(\S+\.service)(?::|:?\s)`: the longest (greedy) prefix
of the leading non-space token that ends in `.service` with a `\S+` part
before it, followed by `:` or a whitespace character. -/
def findServiceUnitRe (msg : String) : Option String :=
  let tok := msg.data.takeWhile (fun c => !goSpace c)
  ((List.range (tok.length + 1)).reverse).findSome? (fun k =>
    let p := tok.take k
    if k > 8 && ".service".data.isSuffixOf p &&
        (match msg.data.drop k with
         | ':' :: _ => true
         | c :: _ => goSpace c
         | [] => false) then some (String.mk p) else none)

/-- `extractServiceUnit`: the unit regex on the message, else the journal
`UNIT` field, else empty. -/
def extractServiceUnit (entry : JournalEntry) : String :=
  match findServiceUnitRe entry.message with
  | some u => u
  | none => fieldsGet entry.fields "UNIT"

/-- `extractExitCode` via `serviceExitCodeRe = status=(\d+)/`. -/
def extractExitCode (msg : String) : String :=
  match firstSplit msg.data (fun _ t =>
    if "status=".data.isPrefixOf t then
      let (ds, t2) := digitRun (t.drop 7)
      if ds.isEmpty then none
      else if "/".data.isPrefixOf t2 then some (String.mk ds) else none
    else none) with
  | some s => s
  | none => ""

end Logtriage

namespace Logtriage

/-! ## T4 summary table (`kernelHWSummaryPatterns`) -/

/-- Capture of `I/O error.*dev\s+(\w+)`. -/
def findIOErrorDev (msg : String) : Option String :=
  firstSplit msg.data (fun _ t =>
    if "I/O error".data.isPrefixOf t then
      lastSeqCapture (t.drop 9) "dev".data spaceWordCapture
    else none)

/-- Capture of `EXT4-fs error \(device (\w+)\)`. -/
def findEXT4Dev (msg : String) : Option String :=
  firstSplit msg.data (fun _ t =>
    if "EXT4-fs error (device ".data.isPrefixOf t then
      let w := (t.drop 22).takeWhile goWord
      if !w.isEmpty && ")".data.isPrefixOf ((t.drop 22).drop w.length) then
        some (String.mk w)
      else none
    else none)

/-- Capture of `XFS.*error.*dev\s+(\w+)`. -/
def findXFSDev (msg : String) : Option String :=
  firstSplit msg.data (fun _ t =>
    if "XFS".data.isPrefixOf t then
      lastSeqCapture (t.drop 3) "error".data (fun t2 =>
        lastSeqCapture t2 "dev".data spaceWordCapture)
    else none)

/-- Capture of `BTRFS.*error.*dev\s+(\w+)`. -/
def findBTRFSDev (msg : String) : Option String :=
  firstSplit msg.data (fun _ t =>
    if "BTRFS".data.isPrefixOf t then
      lastSeqCapture (t.drop 5) "error".data (fun t2 =>
        lastSeqCapture t2 "dev".data spaceWordCapture)
    else none)

/-- Capture of `amdgpu.*ring\s+(\S+)\s+timeout`. -/
def findAmdRing (msg : String) : Option String :=
  firstSplit msg.data (fun _ t =>
    if "amdgpu".data.isPrefixOf t then
      lastSeqCapture (t.drop 6) "ring".data (fun t2 =>
        let sp := t2.takeWhile goSpace
        let t3 := t2.drop sp.length
        let w := t3.takeWhile (fun c => !goSpace c)
        let t4 := t3.drop w.length
        let sp2 := t4.takeWhile goSpace
        if !sp.isEmpty && !w.isEmpty && !sp2.isEmpty &&
            "timeout".data.isPrefixOf (t4.drop sp2.length) then
          some (String.mk w)
        else none)
    else none)

/-- `extractKernelHWSummary`: first matching entry of the ordered
`kernelHWSummaryPatterns` table (each comment names the Go regex), else the
message truncated to 80 characters behind a `Kernel/HW: ` prefix (journal
text is ASCII, so Go's byte slicing agrees with character counting). -/
def extractKernelHWSummary (msg : String) : String :=
  match findIOErrorDev msg with
  | some dev => "I/O error on /dev/" ++ dev
  | none =>
  match findEXT4Dev msg with
  | some dev => "EXT4 error on /dev/" ++ dev
  | none =>
  match findXFSDev msg with
  | some dev => "XFS error on /dev/" ++ dev
  | none =>
  match findBTRFSDev msg with
  | some dev => "BTRFS error on /dev/" ++ dev
  | none =>
  if strSeqSub msg "NVRM:" "GPU has fallen off the bus" then "NVIDIA GPU fallen off bus (fatal)"
  else if strSeqSub msg "NVRM:" "GPU crash dump" then "NVIDIA GPU crash dump"
  else if strSeqSub msg "NVRM:" "Out of memory" then "NVIDIA VRAM out of memory"
  else if strSeqSub msg "NVRM:" "Cannot allocate sysmem" then "NVIDIA sysmem allocation failed"
  else if strHasSub msg "NVRM: Xid" then "NVIDIA GPU error (Xid)"
  else if strSeqSub msg "amdgpu" "GPU reset" then "AMD GPU reset"
  else if strSeqSub msg "amdgpu" "GPU fault" then "AMD GPU fault"
  else
  match findAmdRing msg with
  | some ring => "AMD GPU ring " ++ ring ++ " timeout"
  | none =>
  if strSeqSub msg "amdgpu" "page fault" then "AMD GPU page fault"
  else if strHasSub msg "VM_L2_PROTECTION_FAULT" then "AMD GPU VRAM protection fault"
  else if strHasSub msg "GCVM_L2_PROTECTION_FAULT" then "AMD GPU VRAM protection fault"
  else if strHasSub msg "[drm] VRAM is lost" then "VRAM lost after GPU reset"
  else if strSeqSub msg "amdgpu" "GPU SW CTF" then "AMD GPU thermal fault"
  else if strSeqSub msg "amdgpu" "GPU over temperature" then "AMD GPU over temperature"
  else if strSeqSub msg "i915" "GPU HANG" then "Intel GPU hang"
  else if strSeqSub msg "i915" "Resetting chip" then "Intel GPU chip reset"
  else if strSeqSub msg "i915" "Resetting" then "Intel GPU engine reset"
  else if strHasSub msg "GUC: Engine reset failed" then "Intel GuC engine reset failed"
  else if strHasSub msg "GPU hang" then "GPU hang detected"
  else if strHasSub msg "GPU fault" then "GPU fault detected"
  else if strHasSub msg "flip_done timed out" then "DRM flip timeout"
  else if strHasSub msg "commit wait timed out" then "DRM commit wait timeout"
  else if strHasSub msg "MCE" || strSeqSub msg "mce:" "Hardware Error" then "Machine check exception"
  else if strHasSub msg "NMI:" then "NMI received"
  else if strHasSub msg "EDAC" then "Memory error (EDAC)"
  else if strHasSub msg "AER" then "PCIe AER error"
  else if msg.length > 80 then "Kernel/HW: " ++ (String.mk (msg.data.take 77)) ++ "..."
  else "Kernel/HW: " ++ msg

end Logtriage

namespace Logtriage

/-! ## Classifier (`internal/classifier/classifier.go`) -/

/-- `parseTimestamp`: the `__REALTIME_TIMESTAMP` microseconds when they parse
as an `int64` (for which `time.Unix(usec/1e6, usec%1e6*1000)` is exactly
`usec * 1000` nanoseconds), else the capture time `now`. -/
def parseTimestamp (entry : JournalEntry) (now : Int) : Int :=
  if entry.realtimeTimestamp ≠ "" then
    match goParseInt64 entry.realtimeTimestamp with
    | some usec => usec * 1000
    | none => now
  else now

/-- `classifyOOM`: T1 events from the `oomPatterns` table, with severity
`critical` fixed at construction. -/
def classifyOOM (instanceID : String) (entry : JournalEntry) (ts : Int) : Option Event :=
  if oomMatch entry.message then
    let pp := extractOOMProcess entry.message
    let summary :=
      if pp.1 ≠ "" then "OOM Kill: " ++ pp.1 ++ " (pid " ++ toString pp.2 ++ ")"
      else "OOM Kill"
    some { eventNew instanceID ts "T1" "critical" summary with
            process := pp.1, pid := pp.2, rawFields := entry.fields }
  else none

/-- `classifyCrash`: T2 events, severity `high`; the `systemd-coredump`
identifier branch (`crashIdentifiers`) runs before the message-pattern
branch. -/
def classifyCrash (instanceID : String) (entry : JournalEntry) (ts : Int) : Option Event :=
  if entry.syslogIdentifier = "systemd-coredump" then
    let pp := extractCoredumpProcess entry.message
    let summary :=
      if pp.1 ≠ "" then "Crash: " ++ pp.1 ++ " (pid " ++ toString pp.2 ++ ") dumped core"
      else "Process Crash"
    some { eventNew instanceID ts "T2" "high" summary with
            process := pp.1, pid := pp.2, rawFields := entry.fields }
  else if crashMsgMatch entry.message then
    let pp := extractCrashProcess entry
    let summary :=
      if pp.1 ≠ "" then "Crash: " ++ pp.1 ++ " (pid " ++ toString pp.2 ++ ") segfault"
      else "Process Crash"
    some { eventNew instanceID ts "T2" "high" summary with
            process := pp.1, pid := pp.2, rawFields := entry.fields }
  else none

/-- `classifyServiceFailure`: T3 events, severity `medium`, only for the
`systemd` identifier; a candidate without a derivable unit is dropped (the
`continue` in the Go loop re-tests pattern after pattern, but unit extraction
does not depend on the pattern, so it is a single test here). -/
def classifyServiceFailure (instanceID : String) (entry : JournalEntry) (ts : Int) :
    Option Event :=
  if entry.syslogIdentifier = "systemd" then
    if serviceFailMatch entry.message then
      let unit0 := extractServiceUnit entry
      let unit := if unit0 = "" then entry.systemdUnit else unit0
      if unit = "" then none
      else
        let exitCode := extractExitCode entry.message
        let summary :=
          if exitCode ≠ "" then "Service failed: " ++ unit ++ " (exit " ++ exitCode ++ ")"
          else "Service failed: " ++ unit
        some { eventNew instanceID ts "T3" "medium" summary with
                unit := unit, rawFields := entry.fields }
    else none
  else none

/-- `classifyKernelHW`: T4 events, severity `high`, gated on the kernel
identifier or transport, matched against `kernelHWPatterns` only — the
`gpuPatterns` table is never consulted and `RawFields` is the entry's field
map unchanged (no `_gpu_event` marker is ever written). -/
def classifyKernelHW (instanceID : String) (entry : JournalEntry) (ts : Int) : Option Event :=
  if entry.syslogIdentifier ≠ "kernel" && entry.transport ≠ "kernel" then none
  else if kernelHWMatch entry.message then
    some { eventNew instanceID ts "T4" "high" (extractKernelHWSummary entry.message) with
            rawFields := entry.fields }
  else none

/-- `Classifier.Classify`: tiers tried in the order T1, T2, T3, T4; the first
producing branch wins. -/
def Classify (instanceID : String) (now : Int) (entry : JournalEntry) : Option Event :=
  let ts := parseTimestamp entry now
  match classifyOOM instanceID entry ts with
  | some ev => some ev
  | none =>
    match classifyCrash instanceID entry ts with
    | some ev => some ev
    | none =>
      match classifyServiceFailure instanceID entry ts with
      | some ev => some ev
      | none => classifyKernelHW instanceID entry ts

/-- `ClassifyPSIEvent`: the synthetic T5 memory-pressure entry point, severity
`warning`.  The two `%.1f`-rendered PSI percentages reach only the summary
text; they are taken here already formatted (Go float rendering is outside
this embedding). -/
def ClassifyPSIEvent (instanceID : String) (now : Int) (someStr fullStr detail : String) :
    Event :=
  let summary := "Memory pressure: some=" ++ someStr ++ "% full=" ++ fullStr ++ "%"
  { eventNew instanceID now "T5" "warning" summary with detail := detail }

/-- `ClassifySMARTEvent`: the synthetic T4 disk-health entry point, severity
`high` (the `device` argument is unused by the Go function as well). -/
def ClassifySMARTEvent (instanceID : String) (now : Int)
    (device summary detail : String) : Event :=
  { eventNew instanceID now "T4" "high" summary with detail := detail }

/-- Modelled from the spec: `ClassifyGPUEvent` is called by the pipeline and
tested in `classifier_test.go`, but its definition is not among the source
files (the shipped `classifier.go` predates it).  Per the specification's
synthetic entry points, it builds a T4 event obeying the tier/severity
mapping, and per its tests it marks `raw_fields["_gpu_event"] = "true"` and
records the vendor. -/
def ClassifyGPUEvent (instanceID : String) (now : Int)
    (card vendor summary detail : String) : Event :=
  { eventNew instanceID now "T4" "high" summary with
      detail := detail,
      rawFields := [("_gpu_event", "true"), ("_gpu_vendor", vendor), ("_gpu_card", card)] }

end Logtriage

namespace Logtriage

/-! ## Event store (`internal/store`) -/

/-- A row of the `events` table: the event columns plus the `notified` flag
(which defaults to false on insert). -/
structure StoredRow where
  ev : Event
  notified : Bool
  deriving Repr, DecidableEq

/-- `DB.Insert`: append a row with `notified = false`.  (Raw fields are
serialised as JSON in SQLite; the association list stands for that column.) -/
def dbInsert (rows : List StoredRow) (ev : Event) : List StoredRow :=
  rows ++ [{ ev := ev, notified := false }]

/-- `DB.MarkNotified`: set the `notified` flag on the row(s) with the given
id. -/
def dbMarkNotified (rows : List StoredRow) (id : String) : List StoredRow :=
  rows.map (fun r => if r.ev.id = id then { r with notified := true } else r)

/-- `DedupResult` (`internal/store/dedup.go`). -/
structure DedupResult where
  shouldAlert : Bool
  recentCount : Nat
  aggregated : Bool
  deriving Repr, DecidableEq

/-- The subject condition appended to the cooldown SQL: `AND unit = ?` when
the event has a unit, else `AND process = ?` when it has a process, else no
extra condition (`CheckCooldown`'s query builder). -/
inductive SubjectCond
  | byUnit (u : String)
  | byProcess (p : String)
  | noCond
  deriving Repr, DecidableEq

/-- Which subject condition `CheckCooldown` appends for an event. -/
def cooldownSubjectCond (ev : Event) : SubjectCond :=
  if ev.unit ≠ "" then .byUnit ev.unit
  else if ev.process ≠ "" then .byProcess ev.process
  else .noCond

/-- Whether a stored row satisfies a subject condition. -/
def matchesSubject (c : SubjectCond) (r : StoredRow) : Bool :=
  match c with
  | .byUnit u => r.ev.unit = u
  | .byProcess p => r.ev.process = p
  | .noCond => true

/-- The `COUNT(*)` taken by `CheckCooldown`: rows of the same instance and
tier with `timestamp >= e.timestamp - window` that satisfy the appended
subject condition.  Timestamps are compared numerically; the SQLite string
comparison of RFC3339Nano texts agrees on the whole-second timestamps used in
the concrete inputs below. -/
def cooldownCount (rows : List StoredRow) (ev : Event) (window : Int) : Nat :=
  (rows.filter (fun r =>
    r.ev.instanceID = ev.instanceID && r.ev.tier = ev.tier &&
      ev.timestamp - window ≤ r.ev.timestamp &&
      matchesSubject (cooldownSubjectCond ev) r)).length

/-- `DB.CheckCooldown`: count, then the switch — `count == 0` alerts,
`count == threshold` alerts as aggregated, anything else suppresses.
The Go threshold is an `int`; it is kept as `Int` here. -/
def checkCooldown (rows : List StoredRow) (ev : Event) (window : Int) (threshold : Int) :
    DedupResult :=
  let count := cooldownCount rows ev window
  if count = 0 then { shouldAlert := true, recentCount := count, aggregated := false }
  else if (count : Int) = threshold then
    { shouldAlert := true, recentCount := count, aggregated := true }
  else { shouldAlert := false, recentCount := count, aggregated := false }

end Logtriage

namespace Logtriage

/-! ## Reporter and alert policy (`internal/reporter`, `internal/config`) -/

/-- ASCII model of `strings.EqualFold` (alert tiers are ASCII strings
`"T1"`..`"T5"`). -/
def asciiLower (c : Char) : Char :=
  if 'A' ≤ c && c ≤ 'Z' then Char.ofNat (c.toNat + 32) else c

/-- Case-insensitive string equality, as `strings.EqualFold` on ASCII. -/
def eqFold (a b : String) : Bool :=
  a.data.map asciiLower = b.data.map asciiLower

/-- `Config.ShouldAlert`: whether the tier is in the configured
`ntfy.alert_tiers` list, compared case-insensitively. -/
def configShouldAlert (alertTiers : List String) (tier : String) : Bool :=
  alertTiers.any (fun t => eqFold t tier)

/-- `Config.NtfyPriority`: the `priority_map` entry for the severity, else
`"default"`. -/
def ntfyPriority (priorityMap : List (String × String)) (severity : String) : String :=
  match priorityMap.find? (fun p => p.1 = severity) with
  | some p => p.2
  | none => "default"

/-- `tierEmoji` lookup with the Go zero value for a missing tier. -/
def tierEmoji (tier : String) : String :=
  if tier = "T1" then "🔴"
  else if tier = "T2" then "💥"
  else ""

/-- `FormatTitle`: `<emoji> [<instance>] <summary>`, with an exclamation-mark
fallback emoji. -/
def FormatTitle (ev : Event) : String :=
  let emoji := tierEmoji ev.tier
  let emoji := if emoji = "" then "❗" else emoji
  emoji ++ " [" ++ ev.instanceID ++ "] " ++ ev.summary

/-- `TagsForTier`: the `tierTags` table with the `"warning"` default. -/
def TagsForTier (tier : String) : String :=
  if tier = "T1" then "skull,memory"
  else if tier = "T2" then "warning,crash"
  else "warning"

/-- Outcome of the HTTP POST, supplied as an oracle: a transport error or a
status code. -/
inductive HTTPOutcome
  | netError
  | status (code : Int)
  deriving Repr, DecidableEq

/-- The headers of the ntfy request `Report` builds.  (The body is
`FormatBody`'s host/time/detail text; no claim mentions it and its
local-timezone rendering stays outside the embedding.) -/
structure ReportCall where
  title : String
  priority : String
  tags : String
  deriving Repr, DecidableEq

/-- Result of `NtfyReporter.Report`: whether an HTTP request was performed
(and with which headers), and whether a non-nil error was returned. -/
structure ReportResult where
  call : Option ReportCall
  isError : Bool
  deriving Repr, DecidableEq

/-- `NtfyReporter.Report`: no-op success when no URL is configured or the
tier is not in the alert tiers; otherwise one POST whose non-2xx status or
transport failure is an error. -/
def Report (url : String) (alertTiers : List String) (priorityMap : List (String × String))
    (ev : Event) (http : HTTPOutcome) : ReportResult :=
  if url = "" then { call := none, isError := false }
  else if !configShouldAlert alertTiers ev.tier then { call := none, isError := false }
  else
    let call : ReportCall :=
      { title := FormatTitle ev,
        priority := ntfyPriority priorityMap ev.severity,
        tags := TagsForTier ev.tier }
    match http with
    | .netError => { call := some call, isError := true }
    | .status code => { call := some call, isError := !(200 ≤ code && code < 300) }

end Logtriage

namespace Logtriage

/-! ## Pipeline driver (`cmd/logtriage/main.go`, `handleEvent`) -/

/-- Pipeline configuration slice used by `handleEvent`: the ntfy settings and
the cooldown window/threshold (`cfg.Cooldown.Window`,
`cfg.Cooldown.AggregateThreshold`). -/
structure PipeConfig where
  url : String
  alertTiers : List String
  priorityMap : List (String × String)
  window : Int
  threshold : Int
  deriving Repr, DecidableEq

/-- One store/notifier operation of `handleEvent`, in call order.  The
`report` action carries the event value passed to `Report` and whether the
call returned success (a nil error). -/
inductive PipeAction
  | insert (ev : Event)
  | cooldown (res : DedupResult)
  | report (ev : Event) (ok : Bool)
  | markNotified (id : String)
  deriving Repr, DecidableEq

/-- Result of one `handleEvent` run: the store contents, the ordered
operation trace, and the dedup decision. -/
structure HandleResult where
  rows : List StoredRow
  trace : List PipeAction
  dedup : DedupResult
  deriving Repr, DecidableEq

/-- `handleEvent`: enrich (which mutates only `detail`; the enriched text is
the `enrichedDetail` argument), then `Insert`, then `CheckCooldown`, and on a
positive decision rewrite the in-memory summary to `[x<count>] <summary>`
when aggregated, call `Report`, and `MarkNotified` only when `Report`
returned nil.  DB errors are logged and ignored in Go and not modelled. -/
def handleEvent (cfg : PipeConfig) (rows : List StoredRow) (ev0 : Event)
    (enrichedDetail : String) (http : HTTPOutcome) : HandleResult :=
  let ev : Event := { ev0 with detail := enrichedDetail }
  let rows1 := dbInsert rows ev
  let dedup := checkCooldown rows1 ev cfg.window cfg.threshold
  if dedup.shouldAlert then
    let ev2 :=
      if dedup.aggregated then
        { ev with summary := "[x" ++ toString dedup.recentCount ++ "] " ++ ev.summary }
      else ev
    let rres := Report cfg.url cfg.alertTiers cfg.priorityMap ev2 http
    if rres.isError then
      { rows := rows1,
        trace := [.insert ev, .cooldown dedup, .report ev2 false],
        dedup := dedup }
    else
      { rows := dbMarkNotified rows1 ev2.id,
        trace := [.insert ev, .cooldown dedup, .report ev2 true, .markNotified ev2.id],
        dedup := dedup }
  else
    { rows := rows1, trace := [.insert ev, .cooldown dedup], dedup := dedup }

/-- The main loop's per-event processing applied to a sequence of events (each
with the enrichment leaving `detail` unchanged and the notification endpoint
answering 200), collecting the dedup decision of every event. -/
def runPipeline (cfg : PipeConfig) (rows : List StoredRow) :
    List Event → List StoredRow × List DedupResult
  | [] => (rows, [])
  | ev :: rest =>
    let res := handleEvent cfg rows ev ev.detail (.status 200)
    let (finalRows, ds) := runPipeline cfg res.rows rest
    (finalRows, res.dedup :: ds)

end Logtriage

namespace Logtriage

/-! ## Duration parsing (`parseDuration` in `main.go`,
`config.Duration.UnmarshalText`) -/

/-- `strings.HasSuffix`. -/
def goHasSuffix (s suffixStr : String) : Bool :=
  suffixStr.data.isSuffixOf s.data

/-- `strings.TrimSuffix`. -/
def goTrimSuffix (s suffixStr : String) : String :=
  if goHasSuffix s suffixStr then String.mk (s.data.take (s.data.length - suffixStr.data.length))
  else s

/-- Model of `fmt.Sscanf(s, "%d", &days)` for a Go `int`: skip leading
whitespace, then an optionally signed decimal number; trailing text is
ignored.  `none` is a scan error, including `strconv`'s 64-bit range error. -/
def sscanInt (s : String) : Option Int :=
  let cs := s.data.dropWhile goSpace
  let neg := cs.headD ' ' = '-'
  let signed := neg || cs.headD ' ' = '+'
  let cs2 := if signed then cs.drop 1 else cs
  let ds := cs2.takeWhile Char.isDigit
  if ds.isEmpty then none
  else
    let v : Int := digitsVal ds
    let v := if neg then -v else v
    if v < -9223372036854775808 || v > maxInt64 then none else some v

/-- Nanoseconds in `24 * time.Hour`. -/
def nsPerDay : Int := 86400000000000

/-- `parseDuration` (`cmd/logtriage/main.go`): a `d` suffix is days, computed
as `time.Duration(days) * 24 * time.Hour` in wrapping `int64` nanoseconds;
anything else is delegated to the standard-library `time.ParseDuration`,
which enters as the abstract argument `std`. -/
def parseDuration (std : String → Option Int) (s : String) : Option Int :=
  if goHasSuffix s "d" then
    match sscanInt (goTrimSuffix s "d") with
    | none => none
    | some days => some (int64wrap (days * nsPerDay))
  else std s

/-- `config.Duration.UnmarshalText`: the same `d`-suffix handling in front of
`time.ParseDuration`, as the config loader applies to every duration field. -/
def durationUnmarshalText (std : String → Option Int) (s : String) : Option Int :=
  if goHasSuffix s "d" then
    match sscanInt (goTrimSuffix s "d") with
    | none => none
    | some days => some (int64wrap (days * nsPerDay))
  else std s

end Logtriage
namespace Logtriage

/-! ## Specification-side definitions

These follow the words of the specification (and, for C3's counterexample,
the words of the claim under test); they are compared against the embedded
source functions above. -/

/-- Severity as a pure function of tier, per the spec's mapping
T1→critical, T2→high, T3→medium, T4→high, T5→warning. -/
def sevOfTier (tier : String) : String :=
  if tier = "T1" then "critical"
  else if tier = "T2" then "high"
  else if tier = "T3" then "medium"
  else if tier = "T4" then "high"
  else if tier = "T5" then "warning"
  else ""

/-- The cooldown count as claim C3 words it: same instance, same tier, in
window, and "same unit when e.unit is non-empty else same process" — i.e. a
process-equality filter whenever the unit is empty, even for an empty
process. -/
def claimedCooldownCount (rows : List StoredRow) (ev : Event) (window : Int) : Nat :=
  (rows.filter (fun r =>
    r.ev.instanceID = ev.instanceID && r.ev.tier = ev.tier &&
      ev.timestamp - window ≤ r.ev.timestamp &&
      (if ev.unit ≠ "" then r.ev.unit = ev.unit else r.ev.process = ev.process))).length

/-- The cooldown count as amended: the subject filter is the unit when
non-empty, else the process when non-empty, else absent. -/
def amendedCooldownCount (rows : List StoredRow) (ev : Event) (window : Int) : Nat :=
  (rows.filter (fun r =>
    r.ev.instanceID = ev.instanceID && r.ev.tier = ev.tier &&
      ev.timestamp - window ≤ r.ev.timestamp &&
      (if ev.unit ≠ "" then r.ev.unit = ev.unit
       else if ev.process ≠ "" then r.ev.process = ev.process
       else true))).length

end Logtriage

namespace Logtriage

/-! ## Concrete inputs used by witnesses and counterexamples -/

/-- A crash-looping T2 event with the given id and timestamp (cooldown key:
host1 / T2 / process vlc). -/
def crashLoopEvent (id : String) (ts : Int) : Event :=
  { id := id, instanceID := "host1", timestamp := ts, tier := "T2", severity := "high",
    summary := "Crash: vlc (pid 100) segfault", process := "vlc", pid := 100, unit := "",
    detail := "", rawFields := [] }

/-- Pipeline configuration with the defaults: window 5 minutes, aggregate
threshold 3, alert tiers T1/T2, default priority map. -/
def defaultPipeConfig : PipeConfig :=
  { url := "https://ntfy.example/topic", alertTiers := ["T1", "T2"],
    priorityMap := [("critical", "urgent"), ("high", "high"), ("medium", "default")],
    window := 300000000000, threshold := 3 }

/-- Five cooldown-key-equivalent events, ten seconds apart (N + 2 events for
threshold N = 3), all inside the 5-minute window. -/
def crashLoopEvents : List Event :=
  [crashLoopEvent "e1" 0, crashLoopEvent "e2" 10000000000,
   crashLoopEvent "e3" 20000000000, crashLoopEvent "e4" 30000000000,
   crashLoopEvent "e5" 40000000000]

/-- The journal entry of the repository's own classifier test
`TestClassifyGPUPatterns` ("NVIDIA Xid 31 memory page fault"): kernel
transport, message matching the GPU pattern `NVRM: Xid`. -/
def gpuXidEntry : JournalEntry :=
  { message := "NVRM: Xid (PCI:0000:04:00): 31, Ch 00000001, engmask 00000101, intr 10000000",
    priority := 3, syslogIdentifier := "kernel", systemdUnit := "", pid := "",
    transport := "kernel", realtimeTimestamp := "1708300000000000", fields := [] }

/-- A kernel I/O-error entry carrying a marker journal field, used to witness
that the classifier passes `fields` through unchanged. -/
def ioErrorEntry : JournalEntry :=
  { message := "blk_update_request: I/O error, dev sda, sector 12345",
    priority := 3, syslogIdentifier := "kernel", systemdUnit := "", pid := "",
    transport := "kernel", realtimeTimestamp := "1708300000000000",
    fields := [("_k", "v")] }

/-- A systemd-coredump entry whose message also contains the word "error"
(the T1/T4-overlap example of the spec's design notes). -/
def coredumpErrorEntry : JournalEntry :=
  { message := "Process 5678 (vlc) of user 1000 dumped core. I/O error",
    priority := 2, syslogIdentifier := "systemd-coredump", systemdUnit := "", pid := "",
    transport := "", realtimeTimestamp := "1708300000000000", fields := [] }

/-- A stored T2 row whose process is "x" (subject differs from the empty-key
event below). -/
def subjectRowX : StoredRow :=
  { ev := { id := "p", instanceID := "host1", timestamp := 0, tier := "T4",
            severity := "high", summary := "I/O error on /dev/sda", process := "x",
            pid := 0, unit := "", detail := "", rawFields := [] },
    notified := false }

/-- A T4 event with neither unit nor process, same instance and tier as
`subjectRowX`. -/
def emptySubjectEvent : Event :=
  { id := "q", instanceID := "host1", timestamp := 0, tier := "T4", severity := "high",
    summary := "Machine check exception", process := "", pid := 0, unit := "",
    detail := "", rawFields := [] }

end Logtriage

namespace Logtriage

/-! ## Decimal representation lemmas

`Nat.repr` (via `Nat.toDigitsCore`) produces the decimal digits that
`digitsVal` folds back to the number; these lemmas justify evaluating the
duration parsers on `Nat.repr N ++ "d"` for an arbitrary `N`. -/

theorem digitChar_toNat_sub (m : Nat) (hm : m < 10) :
    (Nat.digitChar m).toNat - 48 = m := by
  interval_cases m <;> decide

theorem digitChar_isDigit (m : Nat) (hm : m < 10) : (Nat.digitChar m).isDigit = true := by
  interval_cases m <;> decide

theorem foldl_toDigitsCore (fuel : Nat) :
    ∀ (n a : Nat) (acc : List Char), n < fuel →
      ∃ K, 0 < K ∧
        (Nat.toDigitsCore 10 fuel n acc).foldl (fun x c => x * 10 + (c.toNat - 48)) a =
          acc.foldl (fun x c => x * 10 + (c.toNat - 48)) (a * 10 ^ K + n) := by
  induction fuel with
  | zero => intro n a acc h; omega
  | succ fuel ih =>
    intro n a acc h
    show ∃ K, 0 < K ∧
      (if n / 10 = 0 then Nat.digitChar (n % 10) :: acc
        else Nat.toDigitsCore 10 fuel (n / 10) (Nat.digitChar (n % 10) :: acc)).foldl
          (fun x c => x * 10 + (c.toNat - 48)) a = _
    by_cases h0 : n / 10 = 0
    · refine ⟨1, Nat.one_pos, ?_⟩
      have hn : n < 10 := (Nat.div_eq_zero_iff (by norm_num)).mp h0
      rw [if_pos h0]
      simp only [List.foldl_cons]
      rw [digitChar_toNat_sub (n % 10) (Nat.mod_lt _ (by norm_num))]
      rw [Nat.mod_eq_of_lt hn]
      norm_num
    · have hpos : 0 < n := by
        rcases Nat.eq_zero_or_pos n with h' | h'
        · subst h'; simp at h0
        · exact h'
      have hlt : n / 10 < fuel := by
        have := Nat.div_lt_self hpos (by norm_num : 1 < 10)
        omega
      obtain ⟨K, hK, hfold⟩ := ih (n / 10) a (Nat.digitChar (n % 10) :: acc) hlt
      refine ⟨K + 1, Nat.succ_pos K, ?_⟩
      simp only [if_neg h0]
      rw [hfold, List.foldl_cons]
      rw [digitChar_toNat_sub (n % 10) (Nat.mod_lt _ (by norm_num))]
      have : (a * 10 ^ K + n / 10) * 10 + n % 10 = a * 10 ^ (K + 1) + n := by
        rw [pow_succ]
        have := Nat.div_add_mod n 10
        ring_nf
        omega
      rw [this]

theorem digitsVal_repr (n : Nat) : digitsVal (Nat.repr n).data = n := by
  obtain ⟨K, _, h⟩ := foldl_toDigitsCore (n + 1) n 0 [] (Nat.lt_succ_self n)
  show (Nat.toDigits 10 n).foldl (fun x c => x * 10 + (c.toNat - 48)) 0 = n
  rw [show Nat.toDigits 10 n = Nat.toDigitsCore 10 (n + 1) n [] from rfl, h]
  simp

theorem toDigitsCore_all_digits (fuel : Nat) :
    ∀ (n : Nat) (acc : List Char), (∀ c ∈ acc, c.isDigit = true) →
      ∀ c ∈ Nat.toDigitsCore 10 fuel n acc, c.isDigit = true := by
  induction fuel with
  | zero => intro n acc hacc; exact hacc
  | succ fuel ih =>
    intro n acc hacc
    show ∀ c ∈ (if n / 10 = 0 then Nat.digitChar (n % 10) :: acc
      else Nat.toDigitsCore 10 fuel (n / 10) (Nat.digitChar (n % 10) :: acc)), c.isDigit = true
    have hd : (Nat.digitChar (n % 10)).isDigit = true :=
      digitChar_isDigit _ (Nat.mod_lt _ (by norm_num))
    by_cases h0 : n / 10 = 0
    · simp only [if_pos h0]
      intro c hc
      rcases List.mem_cons.mp hc with rfl | hc
      · exact hd
      · exact hacc c hc
    · simp only [if_neg h0]
      refine ih (n / 10) _ ?_
      intro c hc
      rcases List.mem_cons.mp hc with rfl | hc
      · exact hd
      · exact hacc c hc

theorem repr_all_digits (n : Nat) : ∀ c ∈ (Nat.repr n).data, c.isDigit = true :=
  toDigitsCore_all_digits (n + 1) n [] (by intro c hc; cases hc)

theorem repr_ne_nil (n : Nat) : (Nat.repr n).data ≠ [] := by
  show Nat.toDigitsCore 10 (n + 1) n [] ≠ []
  show (if n / 10 = 0 then Nat.digitChar (n % 10) :: []
    else Nat.toDigitsCore 10 n (n / 10) (Nat.digitChar (n % 10) :: [])) ≠ []
  by_cases h0 : n / 10 = 0
  · simp [h0]
  · simp only [if_neg h0]
    have : ∀ fuel m (acc : List Char), acc ≠ [] → Nat.toDigitsCore 10 fuel m acc ≠ [] := by
      intro fuel
      induction fuel with
      | zero => intro m acc h; exact h
      | succ fuel ih =>
        intro m acc h
        show (if m / 10 = 0 then Nat.digitChar (m % 10) :: acc
          else Nat.toDigitsCore 10 fuel (m / 10) (Nat.digitChar (m % 10) :: acc)) ≠ []
        by_cases h0 : m / 10 = 0
        · simp [h0]
        · simp only [if_neg h0]
          exact ih (m / 10) _ (by simp)
    exact this n (n / 10) _ (by simp)

end Logtriage
namespace Logtriage

/-! ## Duration-parsing lemmas -/

theorem isDigit_not_space (c : Char) (h : c.isDigit = true) : goSpace c = false := by
  by_contra hs
  rw [Bool.not_eq_false] at hs
  simp only [goSpace, Bool.or_eq_true, decide_eq_true_eq] at hs
  rcases hs with ((((hc | hc) | hc) | hc) | hc) <;> (subst hc; exact absurd h (by decide))

theorem sscanInt_digits (c : Char) (cs : List Char)
    (hd : ∀ x ∈ c :: cs, x.isDigit = true)
    (hrange : (digitsVal (c :: cs) : Int) ≤ maxInt64) :
    sscanInt (String.mk (c :: cs)) = some ((digitsVal (c :: cs) : Int)) := by
  have hcd : c.isDigit = true := hd c (List.mem_cons_self c cs)
  have hdropw : List.dropWhile goSpace (c :: cs) = c :: cs := by
    rw [List.dropWhile_cons, isDigit_not_space c hcd]; simp
  have htake : List.takeWhile Char.isDigit (c :: cs) = c :: cs := by
    rw [List.takeWhile_eq_self_iff]
    exact fun x hx => hd x hx
  have hneg : (c = '-') = False := by
    simp only [eq_iff_iff, iff_false]
    intro h; subst h; exact absurd hcd (by decide)
  have hplus : (c = '+') = False := by
    simp only [eq_iff_iff, iff_false]
    intro h; subst h; exact absurd hcd (by decide)
  unfold maxInt64 at hrange
  unfold sscanInt
  simp only [hdropw, List.headD_cons, hneg, hplus, decide_False, Bool.or_self,
    Bool.false_eq_true, if_false, htake]
  rw [if_neg (by simp)]
  rw [if_neg (by simp only [maxInt64, Bool.or_eq_true, decide_eq_true_eq, not_or]; exact ⟨by omega, by omega⟩)]

end Logtriage
namespace Logtriage

theorem int64wrap_eq_self (x : Int) (h1 : -9223372036854775808 ≤ x)
    (h2 : x < 9223372036854775808) : int64wrap x = x := by
  unfold int64wrap
  rw [Int.emod_eq_of_lt (by omega) (by omega)]
  omega

theorem append_d_data (s : String) : (s ++ "d").data = s.data ++ ['d'] := by
  simp [String.data_append]

theorem goHasSuffix_append_d (s : String) : goHasSuffix (s ++ "d") "d" = true := by
  unfold goHasSuffix
  rw [append_d_data]
  simp [List.isSuffixOf, List.isPrefixOf]

theorem goTrimSuffix_append_d (s : String) :
    goTrimSuffix (s ++ "d") "d" = String.mk s.data := by
  unfold goTrimSuffix
  rw [if_pos (goHasSuffix_append_d s)]
  rw [append_d_data]
  congr 1
  have : (s.data ++ ['d']).length - ("d").data.length = s.data.length := by
    simp
  rw [this]
  exact List.take_left s.data ['d']

end Logtriage
namespace Logtriage

theorem sscanInt_repr (N : Nat) (hle : (N : Int) ≤ maxInt64) :
    sscanInt (String.mk (Nat.repr N).data) = some ((N : Int)) := by
  cases hcons : (Nat.repr N).data with
  | nil => exact absurd hcons (repr_ne_nil N)
  | cons c cs =>
    have hd : ∀ x ∈ c :: cs, x.isDigit = true := by
      rw [← hcons]; exact repr_all_digits N
    have hval : digitsVal (c :: cs) = N := by
      rw [← hcons]; exact digitsVal_repr N
    rw [sscanInt_digits c cs hd (by rw [hval]; exact hle), hval]

theorem parseDuration_repr_d (std : String → Option Int) (N : Nat)
    (h : (N : Int) * 86400000000000 < 9223372036854775808) :
    parseDuration std (Nat.repr N ++ "d") = some ((N : Int) * 86400000000000) := by
  have h0 : (0 : Int) ≤ (N : Int) * 86400000000000 :=
    mul_nonneg (Int.ofNat_nonneg N) (by norm_num)
  have hle : (N : Int) ≤ maxInt64 := by
    have h1 : (N : Int) * 1 ≤ (N : Int) * 86400000000000 :=
      mul_le_mul_of_nonneg_left (by norm_num) (Int.ofNat_nonneg N)
    unfold maxInt64
    omega
  unfold parseDuration
  rw [if_pos (goHasSuffix_append_d _), goTrimSuffix_append_d, sscanInt_repr N hle]
  show some (int64wrap ((N : Int) * nsPerDay)) = _
  unfold nsPerDay
  rw [int64wrap_eq_self _ (by omega) h]

theorem durationUnmarshalText_repr_d (std : String → Option Int) (N : Nat)
    (h : (N : Int) * 86400000000000 < 9223372036854775808) :
    durationUnmarshalText std (Nat.repr N ++ "d") = some ((N : Int) * 86400000000000) := by
  have h0 : (0 : Int) ≤ (N : Int) * 86400000000000 :=
    mul_nonneg (Int.ofNat_nonneg N) (by norm_num)
  have hle : (N : Int) ≤ maxInt64 := by
    have h1 : (N : Int) * 1 ≤ (N : Int) * 86400000000000 :=
      mul_le_mul_of_nonneg_left (by norm_num) (Int.ofNat_nonneg N)
    unfold maxInt64
    omega
  unfold durationUnmarshalText
  rw [if_pos (goHasSuffix_append_d _), goTrimSuffix_append_d, sscanInt_repr N hle]
  show some (int64wrap ((N : Int) * nsPerDay)) = _
  unfold nsPerDay
  rw [int64wrap_eq_self _ (by omega) h]

end Logtriage
namespace Logtriage

/-! ## Cooldown decision facts -/

theorem checkCooldown_recentCount (rows : List StoredRow) (ev : Event)
    (window threshold : Int) :
    (checkCooldown rows ev window threshold).recentCount = cooldownCount rows ev window := by
  simp only [checkCooldown]
  split_ifs <;> rfl

theorem cooldownCount_eq_amended (rows : List StoredRow) (ev : Event) (window : Int) :
    cooldownCount rows ev window = amendedCooldownCount rows ev window := by
  unfold cooldownCount amendedCooldownCount
  congr 1
  apply List.filter_congr
  intro r _
  unfold cooldownSubjectCond matchesSubject
  split_ifs <;> rfl

/-- C3 (amended): `check_cooldown` counts exactly the stored events with the
same instance and tier inside the window, filtered by unit when the event's
unit is non-empty, else by process when the process is non-empty, else with
no subject filter; and on that count `c` with a positive threshold `N` it
returns `(true, c, false)` for `c = 0`, `(false, c, false)` for `0 < c < N`,
`(true, c, true)` for `c = N`, and `(false, c, false)` for `c > N`, with
`recent_count = c`. -/
theorem C3_cooldown_decision (rows : List StoredRow) (ev : Event)
    (window threshold : Int) (hN : 0 < threshold) :
    (checkCooldown rows ev window threshold).recentCount =
        amendedCooldownCount rows ev window ∧
    (amendedCooldownCount rows ev window = 0 →
      checkCooldown rows ev window threshold =
        { shouldAlert := true, recentCount := 0, aggregated := false }) ∧
    (0 < amendedCooldownCount rows ev window →
      (amendedCooldownCount rows ev window : Int) < threshold →
      checkCooldown rows ev window threshold =
        { shouldAlert := false, recentCount := amendedCooldownCount rows ev window,
          aggregated := false }) ∧
    ((amendedCooldownCount rows ev window : Int) = threshold →
      checkCooldown rows ev window threshold =
        { shouldAlert := true, recentCount := amendedCooldownCount rows ev window,
          aggregated := true }) ∧
    ((amendedCooldownCount rows ev window : Int) > threshold →
      checkCooldown rows ev window threshold =
        { shouldAlert := false, recentCount := amendedCooldownCount rows ev window,
          aggregated := false }) := by
  have hc : cooldownCount rows ev window = amendedCooldownCount rows ev window :=
    cooldownCount_eq_amended rows ev window
  refine ⟨by rw [checkCooldown_recentCount, hc], ?_, ?_, ?_, ?_⟩
  · intro h0
    simp only [checkCooldown, hc]
    rw [if_pos h0, h0]
  · intro hpos hlt
    simp only [checkCooldown, hc]
    rw [if_neg (by omega), if_neg (by omega)]
  · intro heq
    simp only [checkCooldown, hc]
    rw [if_neg (by omega), if_pos heq]
  · intro hgt
    simp only [checkCooldown, hc]
    rw [if_neg (by omega), if_neg (by omega)]

/-- Witness for C3: on one prior row with the same unit-free key, the second
occurrence is suppressed with `recent_count = 1`. -/
theorem C3_cooldown_decision_witness :
    (0 : Int) < 3 ∧
    checkCooldown [⟨crashLoopEvent "e1" 0, false⟩] (crashLoopEvent "e2" 10000000000)
        300000000000 3 =
      { shouldAlert := false, recentCount := 1, aggregated := false } :=
  ⟨by norm_num,
   (C3_cooldown_decision [⟨crashLoopEvent "e1" 0, false⟩] (crashLoopEvent "e2" 10000000000)
      300000000000 3 (by norm_num)).2.2.1 (by decide) (by decide)⟩

/-- Counterexample for C3 as stated: for an event with empty unit and empty
process, the code's count ignores the subject entirely (it counts the row
with process "x"), while the claim's "else same process" count is zero — so
`recent_count` and the decision both deviate from the claim. -/
theorem C3_cooldown_decision_cex :
    (checkCooldown [subjectRowX] emptySubjectEvent 300000000000 3).recentCount = 1 ∧
    claimedCooldownCount [subjectRowX] emptySubjectEvent 300000000000 = 0 ∧
    (checkCooldown [subjectRowX] emptySubjectEvent 300000000000 3).shouldAlert = false :=
  ⟨by decide, by decide, by decide⟩

/-- C9: when both unit and process are empty, the cooldown key degenerates to
(instance, tier): the count is over every stored row of that instance and
tier inside the window, regardless of subject. -/
theorem C9_cooldown_empty_subject_bucket (rows : List StoredRow) (ev : Event)
    (window threshold : Int) (hu : ev.unit = "") (hp : ev.process = "") :
    (checkCooldown rows ev window threshold).recentCount =
      (rows.filter (fun r =>
        r.ev.instanceID = ev.instanceID && r.ev.tier = ev.tier &&
          ev.timestamp - window ≤ r.ev.timestamp)).length := by
  rw [checkCooldown_recentCount]
  unfold cooldownCount cooldownSubjectCond
  rw [hu, hp]
  simp [matchesSubject]

/-- Witness for C9: the empty-subject T4 event shares its bucket with a row
whose process is "x". -/
theorem C9_cooldown_empty_subject_bucket_witness :
    emptySubjectEvent.unit = "" ∧ emptySubjectEvent.process = "" ∧
    (checkCooldown [subjectRowX] emptySubjectEvent 300000000000 3).recentCount =
      ([subjectRowX].filter (fun r =>
        r.ev.instanceID = emptySubjectEvent.instanceID &&
          r.ev.tier = emptySubjectEvent.tier &&
          emptySubjectEvent.timestamp - 300000000000 ≤ r.ev.timestamp)).length :=
  ⟨rfl, rfl,
   C9_cooldown_empty_subject_bucket [subjectRowX] emptySubjectEvent 300000000000 3 rfl rfl⟩

end Logtriage
namespace Logtriage

/-- C1 (code evaluated at the failing input): running the pipeline on five
cooldown-key-equivalent events (threshold N = 3, window 5 m) yields the
decision sequence (false,1,false), (false,2,false), (true,3,true),
(false,4,false), (false,5,false) — the 1st event is suppressed and only the
3rd alerts, because `handleEvent` inserts the event before `CheckCooldown`,
so the count includes the event being decided.  The claimed sequence
true, false, false, true, false does not occur. -/
theorem C1_pipeline_alert_sequence :
    ((runPipeline defaultPipeConfig [] crashLoopEvents).2.map
        (fun d => (d.shouldAlert, d.recentCount, d.aggregated)) =
      [(false, 1, false), (false, 2, false), (true, 3, true),
       (false, 4, false), (false, 5, false)]) ∧
    ((runPipeline defaultPipeConfig [] crashLoopEvents).2.map (fun d => d.shouldAlert) ≠
      [true, false, false, true, false]) :=
  ⟨by decide, by decide⟩

/-- C6 (amended): the duration helpers of the CLI (`parseDuration`) and of
the configuration loader (`Duration.UnmarshalText`) both map `"Nd"` to
exactly N × 86400 seconds whenever that value fits in an `int64` of
nanoseconds, and delegate every string without the `d` suffix to the
standard-library parser. -/
theorem C6_duration_day_suffix (std₁ std₂ : String → Option Int) (N : Nat)
    (h : (N : Int) * 86400000000000 < 9223372036854775808) :
    parseDuration std₁ (Nat.repr N ++ "d") = some ((N : Int) * 86400000000000) ∧
    durationUnmarshalText std₂ (Nat.repr N ++ "d") = some ((N : Int) * 86400000000000) ∧
    (∀ s, goHasSuffix s "d" = false →
      parseDuration std₁ s = std₁ s ∧ durationUnmarshalText std₂ s = std₂ s) := by
  refine ⟨parseDuration_repr_d std₁ N h, durationUnmarshalText_repr_d std₂ N h, ?_⟩
  intro s hs
  constructor
  · unfold parseDuration
    rw [hs]
    simp
  · unfold durationUnmarshalText
    rw [hs]
    simp

/-- Witness for C6: `"7d"` is one week of nanoseconds, and `"90m"` is passed
to the standard parser. -/
theorem C6_duration_day_suffix_witness :
    parseDuration (fun _ => none) (Nat.repr 7 ++ "d") = some ((7 : Int) * 86400000000000) ∧
    parseDuration (fun _ => some 42) "90m" = some 42 :=
  ⟨(C6_duration_day_suffix (fun _ => none) (fun _ => none) 7 (by norm_num)).1,
   ((C6_duration_day_suffix (fun _ => some 42) (fun _ => some 42) 7 (by norm_num)).2.2 "90m"
      (by decide)).1⟩

/-- Counterexample for C6 as stated: `"1000000d"` overflows the `int64`
nanosecond representation, so the parsed duration is a wrapped negative
number instead of 10⁶ × 86400 seconds. -/
theorem C6_duration_day_suffix_cex :
    parseDuration (fun _ => none) "1000000d" = some (-5833720368547758080) ∧
    (-5833720368547758080 : Int) ≠ 1000000 * 86400000000000 :=
  ⟨by decide, by decide⟩

/-- C7: with no endpoint URL, or with the event's tier outside the configured
alert tiers, `Report` returns success without performing any HTTP request. -/
theorem C7_report_noop (url : String) (alertTiers : List String)
    (priorityMap : List (String × String)) (ev : Event) (http : HTTPOutcome)
    (h : url = "" ∨ configShouldAlert alertTiers ev.tier = false) :
    Report url alertTiers priorityMap ev http = { call := none, isError := false } := by
  unfold Report
  rcases h with h | h
  · rw [if_pos h]
  · by_cases hu : url = ""
    · rw [if_pos hu]
    · rw [if_neg hu, h]
      simp

/-- Witness for C7: a T4 event under the default T1/T2 alert tiers, and any
event without a configured URL, both produce a silent success. -/
theorem C7_report_noop_witness :
    Report "https://ntfy.example/topic" ["T1", "T2"] [] emptySubjectEvent (.status 500) =
      { call := none, isError := false } ∧
    Report "" ["T1", "T2"] [] (crashLoopEvent "w" 0) HTTPOutcome.netError =
      { call := none, isError := false } :=
  ⟨C7_report_noop "https://ntfy.example/topic" ["T1", "T2"] [] emptySubjectEvent (.status 500)
      (Or.inr (by decide)),
   C7_report_noop "" ["T1", "T2"] [] (crashLoopEvent "w" 0) HTTPOutcome.netError
      (Or.inl rfl)⟩

end Logtriage
namespace Logtriage

/-! ## Classifier branch facts -/

theorem classifyOOM_spec (instanceID : String) (entry : JournalEntry) (ts : Int)
    (ev : Event) (h : classifyOOM instanceID entry ts = some ev) :
    ev.tier = "T1" ∧ ev.severity = "critical" ∧ ev.rawFields = entry.fields := by
  simp only [classifyOOM] at h
  split_ifs at h <;>
    first
      | exact Option.noConfusion h
      | (injection h with h; subst h; exact ⟨rfl, rfl, rfl⟩)

theorem classifyCrash_spec (instanceID : String) (entry : JournalEntry) (ts : Int)
    (ev : Event) (h : classifyCrash instanceID entry ts = some ev) :
    ev.tier = "T2" ∧ ev.severity = "high" ∧ ev.rawFields = entry.fields := by
  simp only [classifyCrash] at h
  split_ifs at h <;>
    first
      | exact Option.noConfusion h
      | (injection h with h; subst h; exact ⟨rfl, rfl, rfl⟩)

theorem classifyServiceFailure_spec (instanceID : String) (entry : JournalEntry) (ts : Int)
    (ev : Event) (h : classifyServiceFailure instanceID entry ts = some ev) :
    ev.tier = "T3" ∧ ev.severity = "medium" ∧ ev.rawFields = entry.fields := by
  simp only [classifyServiceFailure] at h
  split_ifs at h <;>
    first
      | exact Option.noConfusion h
      | (injection h with h; subst h; exact ⟨rfl, rfl, rfl⟩)

theorem classifyKernelHW_spec (instanceID : String) (entry : JournalEntry) (ts : Int)
    (ev : Event) (h : classifyKernelHW instanceID entry ts = some ev) :
    ev.tier = "T4" ∧ ev.severity = "high" ∧ ev.rawFields = entry.fields := by
  simp only [classifyKernelHW] at h
  split_ifs at h <;>
    first
      | exact Option.noConfusion h
      | (injection h with h; subst h; exact ⟨rfl, rfl, rfl⟩)

theorem Classify_cases (instanceID : String) (now : Int) (entry : JournalEntry)
    (ev : Event) (h : Classify instanceID now entry = some ev) :
    classifyOOM instanceID entry (parseTimestamp entry now) = some ev ∨
    classifyCrash instanceID entry (parseTimestamp entry now) = some ev ∨
    classifyServiceFailure instanceID entry (parseTimestamp entry now) = some ev ∨
    classifyKernelHW instanceID entry (parseTimestamp entry now) = some ev := by
  simp only [Classify] at h
  cases h1 : classifyOOM instanceID entry (parseTimestamp entry now) with
  | some e => rw [h1] at h; exact Or.inl h
  | none =>
    rw [h1] at h
    cases h2 : classifyCrash instanceID entry (parseTimestamp entry now) with
    | some e => rw [h2] at h; exact Or.inr (Or.inl h)
    | none =>
      rw [h2] at h
      cases h3 : classifyServiceFailure instanceID entry (parseTimestamp entry now) with
      | some e => rw [h3] at h; exact Or.inr (Or.inr (Or.inl h))
      | none =>
        rw [h3] at h
        exact Or.inr (Or.inr (Or.inr h))

end Logtriage
namespace Logtriage

/-- C4: every event the classifier produces — via `Classify` or the synthetic
entry points — has severity determined solely by its tier under the mapping
T1→critical, T2→high, T3→medium, T4→high, T5→warning. -/
theorem C4_severity_pure_function_of_tier :
    (∀ instanceID now entry ev, Classify instanceID now entry = some ev →
      ev.severity = sevOfTier ev.tier) ∧
    (∀ instanceID now s f d, (ClassifyPSIEvent instanceID now s f d).tier = "T5" ∧
      (ClassifyPSIEvent instanceID now s f d).severity = sevOfTier "T5") ∧
    (∀ instanceID now dev sm d, (ClassifySMARTEvent instanceID now dev sm d).tier = "T4" ∧
      (ClassifySMARTEvent instanceID now dev sm d).severity = sevOfTier "T4") ∧
    (∀ instanceID now c v sm d, (ClassifyGPUEvent instanceID now c v sm d).tier = "T4" ∧
      (ClassifyGPUEvent instanceID now c v sm d).severity = sevOfTier "T4") := by
  refine ⟨?_, ?_, ?_, ?_⟩
  · intro instanceID now entry ev h
    rcases Classify_cases instanceID now entry ev h with h | h | h | h
    · obtain ⟨ht, hs, -⟩ := classifyOOM_spec _ _ _ _ h
      rw [ht, hs]; rfl
    · obtain ⟨ht, hs, -⟩ := classifyCrash_spec _ _ _ _ h
      rw [ht, hs]; rfl
    · obtain ⟨ht, hs, -⟩ := classifyServiceFailure_spec _ _ _ _ h
      rw [ht, hs]; rfl
    · obtain ⟨ht, hs, -⟩ := classifyKernelHW_spec _ _ _ _ h
      rw [ht, hs]; rfl
  · intro instanceID now s f d; exact ⟨rfl, rfl⟩
  · intro instanceID now dev sm d; exact ⟨rfl, rfl⟩
  · intro instanceID now c v sm d; exact ⟨rfl, rfl⟩

/-- Witness for C4 at a concrete T4 record. -/
theorem C4_severity_pure_function_of_tier_witness :
    ∃ ev, Classify "testhost" 0 ioErrorEntry = some ev ∧
      ev.severity = sevOfTier ev.tier := by
  cases hev : Classify "testhost" 0 ioErrorEntry with
  | none => exact absurd hev (by decide)
  | some ev =>
    exact ⟨ev, rfl, C4_severity_pure_function_of_tier.1 "testhost" 0 ioErrorEntry ev hev⟩

/-- C5: tiers are attempted in the order T1, T2, T3, T4, the first producing
branch wins (an `Option` result makes more than one event per record
impossible), and a systemd-coredump record whose message does not hit the T1
table classifies as T2 — never T4 — whatever T4 patterns its message
matches. -/
theorem C5_first_match_wins :
    (∀ instanceID now entry ev,
      classifyOOM instanceID entry (parseTimestamp entry now) = some ev →
      Classify instanceID now entry = some ev) ∧
    (∀ instanceID now entry ev,
      classifyOOM instanceID entry (parseTimestamp entry now) = none →
      classifyCrash instanceID entry (parseTimestamp entry now) = some ev →
      Classify instanceID now entry = some ev) ∧
    (∀ instanceID now entry ev,
      classifyOOM instanceID entry (parseTimestamp entry now) = none →
      classifyCrash instanceID entry (parseTimestamp entry now) = none →
      classifyServiceFailure instanceID entry (parseTimestamp entry now) = some ev →
      Classify instanceID now entry = some ev) ∧
    (∀ instanceID now entry,
      classifyOOM instanceID entry (parseTimestamp entry now) = none →
      classifyCrash instanceID entry (parseTimestamp entry now) = none →
      classifyServiceFailure instanceID entry (parseTimestamp entry now) = none →
      Classify instanceID now entry =
        classifyKernelHW instanceID entry (parseTimestamp entry now)) ∧
    (∀ instanceID now entry,
      entry.syslogIdentifier = "systemd-coredump" →
      oomMatch entry.message = false →
      ∃ ev, Classify instanceID now entry = some ev ∧ ev.tier = "T2") := by
  refine ⟨?_, ?_, ?_, ?_, ?_⟩
  · intro instanceID now entry ev h
    simp only [Classify]
    rw [h]
  · intro instanceID now entry ev h1 h2
    simp only [Classify]
    rw [h1, h2]
  · intro instanceID now entry ev h1 h2 h3
    simp only [Classify]
    rw [h1, h2, h3]
  · intro instanceID now entry h1 h2 h3
    simp only [Classify]
    rw [h1, h2, h3]
  · intro instanceID now entry hid hoom
    have h1 : classifyOOM instanceID entry (parseTimestamp entry now) = none := by
      simp only [classifyOOM]
      rw [hoom]
      simp
    have h2 : ∃ ev, classifyCrash instanceID entry (parseTimestamp entry now) = some ev := by
      simp only [classifyCrash]
      rw [if_pos hid]
      exact ⟨_, rfl⟩
    obtain ⟨ev, hev⟩ := h2
    obtain ⟨ht2, -, -⟩ := classifyCrash_spec _ _ _ _ hev
    refine ⟨ev, ?_, ht2⟩
    simp only [Classify]
    rw [h1, hev]

/-- Witness for C5: the coredump-with-"error" record of the spec's design
notes classifies as T2. -/
theorem C5_first_match_wins_witness :
    coredumpErrorEntry.syslogIdentifier = "systemd-coredump" ∧
    oomMatch coredumpErrorEntry.message = false ∧
    ∃ ev, Classify "testhost" 0 coredumpErrorEntry = some ev ∧ ev.tier = "T2" :=
  ⟨rfl, by decide,
   C5_first_match_wins.2.2.2.2 "testhost" 0 coredumpErrorEntry rfl (by decide)⟩

/-- C2 (code evaluated at the failing input): the repository's own
classifier-test record "NVIDIA Xid 31" — kernel transport, message matching
the GPU pattern table — classifies to no event at all, because
`classifyKernelHW` consults only `kernelHWPatterns`; and in general every
classified event carries the journal entry's field map unchanged, so
classification never sets `raw_fields["_gpu_event"]`. -/
theorem C2_gpu_flag_never_set :
    Classify "testhost" 0 gpuXidEntry = none ∧
    gpuPatMatch gpuXidEntry.message = true ∧
    (∀ instanceID now entry ev, Classify instanceID now entry = some ev →
      ev.rawFields = entry.fields) := by
  refine ⟨by decide, by decide, ?_⟩
  intro instanceID now entry ev h
  rcases Classify_cases instanceID now entry ev h with h | h | h | h
  · exact (classifyOOM_spec _ _ _ _ h).2.2
  · exact (classifyCrash_spec _ _ _ _ h).2.2
  · exact (classifyServiceFailure_spec _ _ _ _ h).2.2
  · exact (classifyKernelHW_spec _ _ _ _ h).2.2

/-- Witness for C2's universal part: a classified I/O-error record keeps its
field map, with no `_gpu_event` entry appearing. -/
theorem C2_gpu_flag_never_set_witness :
    ∃ ev, Classify "testhost" 0 ioErrorEntry = some ev ∧
      ev.rawFields = ioErrorEntry.fields ∧
      fieldsGet ev.rawFields "_gpu_event" ≠ "true" := by
  cases hev : Classify "testhost" 0 ioErrorEntry with
  | none => exact absurd hev (by decide)
  | some ev =>
    have hf := C2_gpu_flag_never_set.2.2 "testhost" 0 ioErrorEntry ev hev
    refine ⟨ev, rfl, hf, ?_⟩
    rw [hf]
    decide

end Logtriage
namespace Logtriage

/-! ## Pipeline trace facts -/

theorem handleEvent_trace_shape (cfg : PipeConfig) (rows : List StoredRow) (ev0 : Event)
    (d : String) (http : HTTPOutcome) :
    ∃ ev dd,
      (handleEvent cfg rows ev0 d http).trace = [.insert ev, .cooldown dd] ∨
      ∃ ev2,
        ((handleEvent cfg rows ev0 d http).trace =
            [.insert ev, .cooldown dd, .report ev2 false] ∨
          (handleEvent cfg rows ev0 d http).trace =
            [.insert ev, .cooldown dd, .report ev2 true, .markNotified ev2.id]) ∧
        ev2.id = ev.id := by
  simp only [handleEvent]
  split_ifs with h1 h2 h3 h4
  · exact ⟨_, _, Or.inr ⟨_, Or.inl rfl, rfl⟩⟩
  · exact ⟨_, _, Or.inr ⟨_, Or.inr rfl, rfl⟩⟩
  · exact ⟨_, _, Or.inr ⟨_, Or.inl rfl, rfl⟩⟩
  · exact ⟨_, _, Or.inr ⟨_, Or.inr rfl, rfl⟩⟩
  · exact ⟨_, _, Or.inl rfl⟩

theorem handleEvent_dedup (cfg : PipeConfig) (rows : List StoredRow) (ev0 : Event)
    (d : String) (http : HTTPOutcome) :
    (handleEvent cfg rows ev0 d http).dedup =
      checkCooldown (dbInsert rows { ev0 with detail := d }) { ev0 with detail := d }
        cfg.window cfg.threshold := by
  simp only [handleEvent]
  split_ifs <;> rfl

theorem checkCooldown_aggregated_shouldAlert (rows : List StoredRow) (ev : Event)
    (window threshold : Int)
    (h : (checkCooldown rows ev window threshold).aggregated = true) :
    (checkCooldown rows ev window threshold).shouldAlert = true := by
  simp only [checkCooldown] at h ⊢
  split_ifs at h ⊢ <;> simp_all

theorem dbMarkNotified_map_ev (rows : List StoredRow) (id : String) :
    (dbMarkNotified rows id).map (fun r => r.ev) = rows.map (fun r => r.ev) := by
  unfold dbMarkNotified
  rw [List.map_map]
  apply List.map_congr_left
  intro r _
  show (if r.ev.id = id then { r with notified := true } else r).ev = r.ev
  split_ifs <;> rfl

end Logtriage
namespace Logtriage

/-- C8: in every `handleEvent` run, any notifier invocation comes after the
store insert of the same event (by trace position, with matching event id);
the notified flag is written exactly for a `Report` call that returned
success; and after a failed notification — any non-2xx status or transport
error — no `MarkNotified` occurs in the run. -/
theorem C8_insert_before_notify (cfg : PipeConfig) (rows : List StoredRow) (ev0 : Event)
    (d : String) (http : HTTPOutcome) :
    (∀ i ev2 ok,
      (handleEvent cfg rows ev0 d http).trace.get? i = some (.report ev2 ok) →
      ∃ j ev1, j < i ∧
        (handleEvent cfg rows ev0 d http).trace.get? j = some (.insert ev1) ∧
        ev1.id = ev2.id) ∧
    (∀ id, PipeAction.markNotified id ∈ (handleEvent cfg rows ev0 d http).trace →
      ∃ ev2, PipeAction.report ev2 true ∈ (handleEvent cfg rows ev0 d http).trace ∧
        ev2.id = id) ∧
    (∀ ev2, PipeAction.report ev2 false ∈ (handleEvent cfg rows ev0 d http).trace →
      ∀ id, PipeAction.markNotified id ∉ (handleEvent cfg rows ev0 d http).trace) := by
  obtain ⟨ev, dd, hsh⟩ := handleEvent_trace_shape cfg rows ev0 d http
  rcases hsh with htr | ⟨ev2, htr | htr, hid⟩ <;> rw [htr]
  · refine ⟨?_, ?_, ?_⟩
    · intro i e2 ok hi
      rcases i with _ | _ | i <;> simp_all
    · intro id hmem
      simp at hmem
    · intro e2 hrep
      simp at hrep
  · refine ⟨?_, ?_, ?_⟩
    · intro i e2 ok hi
      rcases i with _ | _ | _ | i
      · simp at hi
      · simp at hi
      · refine ⟨0, ev, by omega, rfl, ?_⟩
        simp only [List.get?] at hi
        injection hi with hi
        injection hi with h1 h2
        rw [← h1, hid]
      · simp at hi
    · intro id hmem
      simp at hmem
    · intro e2 hrep id hmem
      simp at hmem
  · refine ⟨?_, ?_, ?_⟩
    · intro i e2 ok hi
      rcases i with _ | _ | _ | _ | i
      · simp at hi
      · simp at hi
      · refine ⟨0, ev, by omega, rfl, ?_⟩
        simp only [List.get?] at hi
        injection hi with hi
        injection hi with h1 h2
        rw [← h1, hid]
      · simp at hi
      · simp at hi
    · intro id hmem
      refine ⟨ev2, by simp, ?_⟩
      simp at hmem
      exact hmem.symm
    · intro e2 hrep
      simp at hrep

end Logtriage
namespace Logtriage

/-! ## C8 and C10 witness inputs -/

/-- Two prior rows of the crash-loop key, so that the next event hits the
aggregate threshold (post-insert count 3). -/
def c8Rows : List StoredRow :=
  [⟨crashLoopEvent "p1" 0, false⟩, ⟨crashLoopEvent "p2" 0, false⟩]

/-- The in-memory event `handleEvent` hands to the notifier in the aggregated
run below: the summary is prefixed with the recent count. -/
def c8ReportedEvent : Event :=
  { crashLoopEvent "e3" 0 with
      detail := "",
      summary := "[x3] Crash: vlc (pid 100) segfault" }

/-- Witness for C8: after the notification of the aggregated run fails with
HTTP 500, the event is not marked notified. -/
theorem C8_insert_before_notify_witness :
    PipeAction.markNotified "e3" ∉
      (handleEvent defaultPipeConfig c8Rows (crashLoopEvent "e3" 0) ""
        (.status 500)).trace :=
  (C8_insert_before_notify defaultPipeConfig c8Rows (crashLoopEvent "e3" 0) ""
    (.status 500)).2.2 c8ReportedEvent (by decide) "e3"

/-- C10: whenever the decision is aggregated, the run appends to the store
exactly the enriched event with its original, unprefixed summary (the other
rows' event columns untouched), while the event handed to the notifier is
the in-memory copy whose summary was rewritten to
`[x<recent_count>] <summary>` after the insert; the notification title is
the tier emoji, the instance id, and that rewritten summary. -/
theorem C10_aggregated_summary_rewrite (cfg : PipeConfig) (rows : List StoredRow)
    (ev0 : Event) (d : String) (http : HTTPOutcome)
    (hagg : (handleEvent cfg rows ev0 d http).dedup.aggregated = true) :
    ((handleEvent cfg rows ev0 d http).rows.map (fun r => r.ev) =
      rows.map (fun r => r.ev) ++ [{ ev0 with detail := d }]) ∧
    (∃ ok, PipeAction.report
        { ev0 with
            detail := d,
            summary :=
              "[x" ++ toString (handleEvent cfg rows ev0 d http).dedup.recentCount ++
                "] " ++ ev0.summary } ok ∈ (handleEvent cfg rows ev0 d http).trace) ∧
    FormatTitle
        { ev0 with
            detail := d,
            summary :=
              "[x" ++ toString (handleEvent cfg rows ev0 d http).dedup.recentCount ++
                "] " ++ ev0.summary } =
      (if tierEmoji ev0.tier = "" then "❗" else tierEmoji ev0.tier) ++ " [" ++
        ev0.instanceID ++ "] " ++
        ("[x" ++ toString (handleEvent cfg rows ev0 d http).dedup.recentCount ++ "] " ++
          ev0.summary) := by
  have hdd := handleEvent_dedup cfg rows ev0 d http
  have hagg2 := hagg
  rw [hdd] at hagg2
  have hs := checkCooldown_aggregated_shouldAlert _ _ _ _ hagg2
  refine ⟨?_, ?_, rfl⟩
  · simp only [handleEvent]
    split_ifs <;>
      first
        | (show (dbInsert rows { ev0 with detail := d }).map (fun r => r.ev) = _
           unfold dbInsert
           rw [List.map_append]
           rfl)
        | (show (dbMarkNotified (dbInsert rows { ev0 with detail := d }) _).map
              (fun r => r.ev) = _
           rw [dbMarkNotified_map_ev]
           unfold dbInsert
           rw [List.map_append]
           rfl)
  · simp only [handleEvent]
    split_ifs
    all_goals
      first
        | exact ⟨false, List.mem_cons.mpr (Or.inr (List.mem_cons.mpr (Or.inr
            (List.mem_cons.mpr (Or.inl rfl)))))⟩
        | exact ⟨true, List.mem_cons.mpr (Or.inr (List.mem_cons.mpr (Or.inr
            (List.mem_cons.mpr (Or.inl rfl)))))⟩

/-- Witness for C10: the aggregated run over two prior crash-loop rows stores
the unprefixed event and reports the `[x3]`-prefixed copy. -/
theorem C10_aggregated_summary_rewrite_witness :
    (handleEvent defaultPipeConfig c8Rows (crashLoopEvent "e3" 0) ""
        (.status 200)).rows.map (fun r => r.ev) =
      c8Rows.map (fun r => r.ev) ++ [{ crashLoopEvent "e3" 0 with detail := "" }] :=
  (C10_aggregated_summary_rewrite defaultPipeConfig c8Rows (crashLoopEvent "e3" 0) ""
    (.status 200) (by decide)).1

end Logtriage
